import Mathlib

/-!
Shallow embedding of `src/index.ts` of katpool-payment: the startup and
lifecycle orchestrator of the scheduled payout service.  The module-level
script is modelled as a pure function from the process environment, the
configuration file and the behaviour of the remote node to a startup outcome
together with the trace of side effects reached; the cron callback and the
heartbeat countdown are modelled as pure functions of their inputs.
-/

/-- JS falsiness test applied by the source to string-valued inputs:
`!x` is true exactly when `x` is `undefined` or the empty string. -/
def falsyStr : Option String → Bool
  | none => true
  | some s => s == ""

/-- The process environment variables read by `index.ts`. -/
structure Env where
  treasuryPrivateKey : Option String
  pushGateway : Option String
  databaseUrl : Option String
deriving DecidableEq, Repr

/-- The fields of `config.json` read by `index.ts`.  `payoutsPerDay` is a
JSON number (JS numbers may be non-integral, so it is modelled as a
rational); an absent field is `none`. -/
structure Config where
  network : Option String
  payoutsPerDay : Option ℚ
deriving DecidableEq, Repr

/-- Source line `config.payoutsPerDay || 2`: the JS `||` operator replaces a falsy
left operand (an absent field, or the number 0) by the default 2. -/
def effectivePayoutsPerDay (cfg : Config) : ℚ :=
  match cfg.payoutsPerDay with
  | none => 2
  | some v => if v = 0 then 2 else v

/-- Source line `const paymentInterval = 24 / payoutsPerDay` (JS real division). -/
def paymentInterval (cfg : Config) : ℚ :=
  24 / effectivePayoutsPerDay cfg

/-- The behaviour of the external RPC node during this run: whether
`rpc.connect()` succeeds, and the two flags of the server-info snapshot
returned by `rpc.getServerInfo()`. -/
structure NodeBehavior where
  connectOk : Bool
  isSynced : Bool
  hasUtxoIndex : Bool
deriving DecidableEq, Repr

/-- The data the `trxManager` constructor is called with in
`setupTransactionManager` (the live rpc handle is left implicit). -/
structure TrxManager where
  network : String
  treasuryPrivateKey : String
  databaseUrl : String
deriving DecidableEq, Repr

/-- The module-level mutable state after startup: `rpcConnected` and the
`transactionManager` variable (`null` is `none`). -/
structure AppState where
  rpcConnected : Bool
  transactionManager : Option TrxManager
deriving DecidableEq, Repr

/-- Side effects of the startup sequence that the claims observe. -/
inductive StartupEvent
  | connectAttempt
  | schedulerRegistered
deriving DecidableEq, Repr

deriving instance DecidableEq for Except

/-- Outcome of evaluating the module: either the state reached (the
scheduler was registered) or the message of the thrown error (a top-level
throw aborts the module and the process exits non-zero), together with
the ordered trace of observed side effects. -/
structure StartupResult where
  outcome : Except String AppState
  events : List StartupEvent
deriving DecidableEq, Repr

/-- The module-level startup sequence of `index.ts`, in source order:
the four required-configuration checks, the payment-interval range check,
`startRpcConnection` (connect, then the server-info readiness check, then
`rpcConnected = true`), `setupTransactionManager`, and finally the
`cron.schedule` registration. -/
def startup (env : Env) (cfg : Config) (node : NodeBehavior) : StartupResult :=
  if falsyStr env.treasuryPrivateKey then
    ⟨.error "Environment variable TREASURY_PRIVATE_KEY is not set.", []⟩
  else if falsyStr cfg.network then
    ⟨.error "No network has been set in config.json", []⟩
  else if falsyStr env.pushGateway then
    ⟨.error "Environment variable PUSHGATEWAY is not set.", []⟩
  else if falsyStr env.databaseUrl then
    ⟨.error "Environment variable DATABASE_URL is not set.", []⟩
  else if paymentInterval cfg < 1 ∨ 24 < paymentInterval cfg then
    ⟨.error "paymentInterval must be between 1 and 24 hours.", []⟩
  else if !node.connectOk then
    ⟨.error "RPC connection error", [.connectAttempt]⟩
  else if !node.isSynced || !node.hasUtxoIndex then
    ⟨.error "Provided node is either not synchronized or lacks the UTXO index.",
      [.connectAttempt]⟩
  else
    ⟨.ok { rpcConnected := true
           transactionManager := some
             { network := cfg.network.getD ""
               treasuryPrivateKey := env.treasuryPrivateKey.getD ""
               databaseUrl := env.databaseUrl.getD "" } },
      [.connectAttempt, .schedulerRegistered]⟩

/-- Whether the run constructed the transaction manager. -/
def managerConstructed (r : StartupResult) : Bool :=
  match r.outcome with
  | .ok st => st.transactionManager.isSome
  | .error _ => false

/-- All four required-configuration checks of the startup validator pass. -/
def requiredConfigOk (env : Env) (cfg : Config) : Bool :=
  !falsyStr env.treasuryPrivateKey && !falsyStr cfg.network &&
  !falsyStr env.pushGateway && !falsyStr env.databaseUrl

/-- A log line emitted through the monitoring collaborator. -/
inductive LogLine
  | info (msg : String)
  | error (msg : String)
deriving DecidableEq, Repr

/-- Observable result of one firing of the cron callback. -/
structure TickResult where
  transferInvocations : Nat
  logs : List LogLine
  thrown : Option String
deriving DecidableEq, Repr

/-- The `cron.schedule` callback: gate on `rpcConnected`; inside the gate,
log the run, invoke `transferBalances` (whose result for this firing is
`transferOutcome`) inside try/catch, and log a caught error; outside the
gate, log the not-established error.  `thrown` records an error escaping
the callback. -/
def scheduledTick (rpcConnected : Bool) (transferOutcome : Except String Unit) :
    TickResult :=
  if rpcConnected then
    match transferOutcome with
    | .ok _ =>
      { transferInvocations := 1
        logs := [.info "Main: Running scheduled balance transfer"]
        thrown := none }
    | .error e =>
      { transferInvocations := 1
        logs := [.info "Main: Running scheduled balance transfer",
                 .error ("Main: Transaction manager error: " ++ e)]
        thrown := none }
  else
    { transferInvocations := 0
      logs := [.error "Main: RPC connection is not established before balance transfer"]
      thrown := none }

/-- Source line `const nextTransferHours = paymentInterval - (hours % paymentInterval)`;
`Int.tmod` is the truncating remainder of the JS `%` operator (the operands
here are the wall-clock hour and the interval). -/
def nextTransferHours (interval hours : ℤ) : ℤ :=
  interval - Int.tmod hours interval

/-- Source line `const remainingMinutes = nextTransferHours * 60 - minutes`. -/
def remainingMinutes (interval hours minutes : ℤ) : ℤ :=
  nextTransferHours interval hours * 60 - minutes

/-- Source line `const remainingTime = remainingMinutes === nextTransferHours * 60 ? 0
: remainingMinutes`. -/
def remainingTime (interval hours minutes : ℤ) : ℤ :=
  if remainingMinutes interval hours minutes = nextTransferHours interval hours * 60
  then 0 else remainingMinutes interval hours minutes

/-- Modelled from the spec: node-cron, the external scheduling library
interpreting the expression `0 */I * * *` built at the `cron.schedule`
call, is not part of this repository.  Per the cadence section of the spec it
fires at minute 0 of every hour that is an exact multiple of the interval
`I` (cron step fields count from 0, so the matched hours are 0, I, 2I, ...). -/
def cronFires (interval hour minute : ℕ) : Bool :=
  minute == 0 && hour % interval == 0

-- Concrete fixtures used by witnesses and counterexamples.

/-- An environment with all three variables set. -/
def envGood : Env := ⟨some "key", some "gw", some "db"⟩

/-- A configuration with a network and the documented default frequency. -/
def cfgGood : Config := ⟨some "mainnet", some 2⟩

/-- A node that connects, is synced and has the UTXO index. -/
def nodeGood : NodeBehavior := ⟨true, true, true⟩

/-- The payment-interval range check passes for the good fixture. -/
lemma paymentInterval_cfgGood :
    ¬ (paymentInterval cfgGood < 1 ∨ 24 < paymentInterval cfgGood) := by
  norm_num [cfgGood, paymentInterval, effectivePayoutsPerDay]

/-- Evaluation of the startup sequence on the good fixtures. -/
lemma startup_good_eq :
    startup envGood cfgGood nodeGood =
      ⟨Except.ok ⟨true, some ⟨"mainnet", "key", "db"⟩⟩,
        [.connectAttempt, .schedulerRegistered]⟩ := by
  simp [startup, envGood, cfgGood, nodeGood, falsyStr]
  norm_num [paymentInterval, effectivePayoutsPerDay]

-- Characterization of successful startup, shared by several claims.

/-- A startup run produces a state exactly when every validation check
passed, the connect call succeeded and both server-info flags are true;
the state then has `rpcConnected` set and the manager constructed. -/
lemma startup_ok_iff (env : Env) (cfg : Config) (node : NodeBehavior)
    (st : AppState) :
    (startup env cfg node).outcome = Except.ok st ↔
      falsyStr env.treasuryPrivateKey = false ∧ falsyStr cfg.network = false ∧
      falsyStr env.pushGateway = false ∧ falsyStr env.databaseUrl = false ∧
      ¬ (paymentInterval cfg < 1 ∨ 24 < paymentInterval cfg) ∧
      node.connectOk = true ∧ node.isSynced = true ∧ node.hasUtxoIndex = true ∧
      st = ⟨true, some ⟨cfg.network.getD "", env.treasuryPrivateKey.getD "",
        env.databaseUrl.getD ""⟩⟩ := by
  unfold startup
  split_ifs with h1 h2 h3 h4 h5 h6 h7 <;> simp_all
  · intro hsy hut
    rcases h7 with h | h <;> simp_all
  · exact eq_comm

/-- C1: the transaction manager is constructed only in a run where the
connect attempt succeeded and the server-info snapshot has both isSynced
and hasUtxoIndex true; if either flag is false the manager is never
constructed, and when the connection stage is reached (validation passed
and connect succeeded) startup raises exactly the fatal node-not-ready
error, so construction does not happen. -/
theorem claim_C1 (env : Env) (cfg : Config) (node : NodeBehavior) :
    (managerConstructed (startup env cfg node) = true →
      node.connectOk = true ∧ node.isSynced = true ∧ node.hasUtxoIndex = true)
    ∧ ((node.isSynced = false ∨ node.hasUtxoIndex = false) →
      managerConstructed (startup env cfg node) = false)
    ∧ (requiredConfigOk env cfg = true →
        ¬ (paymentInterval cfg < 1 ∨ 24 < paymentInterval cfg) →
        node.connectOk = true →
        (node.isSynced = false ∨ node.hasUtxoIndex = false) →
      startup env cfg node =
        ⟨.error "Provided node is either not synchronized or lacks the UTXO index.",
          [.connectAttempt]⟩) := by
  refine ⟨?_, ?_, ?_⟩
  · intro h
    unfold managerConstructed at h
    rcases hc : (startup env cfg node).outcome with e | st
    · rw [hc] at h; simp at h
    · rw [startup_ok_iff] at hc
      exact ⟨hc.2.2.2.2.2.1, hc.2.2.2.2.2.2.1, hc.2.2.2.2.2.2.2.1⟩
  · intro hflag
    unfold managerConstructed
    rcases hc : (startup env cfg node).outcome with e | st
    · rfl
    · rw [startup_ok_iff] at hc
      rcases hflag with h | h <;> simp_all
  · intro hok hin hco hflag
    simp only [requiredConfigOk, Bool.and_eq_true, Bool.not_eq_true'] at hok
    obtain ⟨⟨⟨h1, h2⟩, h3⟩, h4⟩ := hok
    rcases hflag with h | h <;> simp [startup, h1, h2, h3, h4, hin, hco, h]

/-- C1 witness: with a node that connects but is not synced, startup ends
with the node-not-ready error and the manager is not constructed. -/
theorem claim_C1_witness :
    managerConstructed (startup envGood cfgGood ⟨true, false, true⟩) = false
    ∧ startup envGood cfgGood ⟨true, false, true⟩ =
        ⟨.error "Provided node is either not synchronized or lacks the UTXO index.",
          [.connectAttempt]⟩ :=
  ⟨(claim_C1 envGood cfgGood ⟨true, false, true⟩).2.1 (Or.inl rfl),
   (claim_C1 envGood cfgGood ⟨true, false, true⟩).2.2 rfl
     paymentInterval_cfgGood rfl (Or.inl rfl)⟩

/-- C2: when the gate is true the callback invokes transferBalances
exactly once, lets no error escape, and logs any transfer error; when the
gate is false it does not invoke transferBalances and logs the
connection-not-established error line. -/
theorem claim_C2 (r : Except String Unit) :
    (scheduledTick true r).transferInvocations = 1
    ∧ (scheduledTick true r).thrown = none
    ∧ (∀ e, r = Except.error e →
        LogLine.error ("Main: Transaction manager error: " ++ e) ∈
          (scheduledTick true r).logs)
    ∧ (scheduledTick false r).transferInvocations = 0
    ∧ (scheduledTick false r).thrown = none
    ∧ LogLine.error "Main: RPC connection is not established before balance transfer"
        ∈ (scheduledTick false r).logs := by
  cases r <;> simp [scheduledTick]

/-- C2 witness: a failing transfer with the gate open gets its error
logged. -/
theorem claim_C2_witness :
    LogLine.error ("Main: Transaction manager error: " ++ "boom") ∈
      (scheduledTick true (Except.error "boom")).logs :=
  (claim_C2 (Except.error "boom")).2.2.1 "boom" rfl

/-- C5: each of the four required inputs, when absent (or empty), aborts
startup with its own distinct error naming the missing value, before any
connection attempt (the event trace is empty). -/
theorem claim_C5 (env : Env) (cfg : Config) (node : NodeBehavior) :
    (falsyStr env.treasuryPrivateKey = true →
      startup env cfg node =
        ⟨.error "Environment variable TREASURY_PRIVATE_KEY is not set.", []⟩)
    ∧ (falsyStr env.treasuryPrivateKey = false → falsyStr cfg.network = true →
      startup env cfg node =
        ⟨.error "No network has been set in config.json", []⟩)
    ∧ (falsyStr env.treasuryPrivateKey = false → falsyStr cfg.network = false →
        falsyStr env.pushGateway = true →
      startup env cfg node =
        ⟨.error "Environment variable PUSHGATEWAY is not set.", []⟩)
    ∧ (falsyStr env.treasuryPrivateKey = false → falsyStr cfg.network = false →
        falsyStr env.pushGateway = false → falsyStr env.databaseUrl = true →
      startup env cfg node =
        ⟨.error "Environment variable DATABASE_URL is not set.", []⟩) := by
  refine ⟨fun h1 => ?_, fun h1 h2 => ?_, fun h1 h2 h3 => ?_, fun h1 h2 h3 h4 => ?_⟩
  · simp [startup, h1]
  · simp [startup, h1, h2]
  · simp [startup, h1, h2, h3]
  · simp [startup, h1, h2, h3, h4]

/-- C5 witness: a missing treasury credential aborts startup with the
treasury error and an empty event trace. -/
theorem claim_C5_witness :
    startup ⟨none, some "gw", some "db"⟩ cfgGood nodeGood =
      ⟨.error "Environment variable TREASURY_PRIVATE_KEY is not set.", []⟩ :=
  (claim_C5 ⟨none, some "gw", some "db"⟩ cfgGood nodeGood).1 rfl

/-- C6: with interval 12 the heartbeat reports 595 remaining minutes at
14:05 and 0 at the 12:00 firing boundary. -/
theorem claim_C6 :
    remainingTime 12 14 5 = 595 ∧ remainingTime 12 12 0 = 0 := by
  decide

/-- C9: at the top of any hour (minutes = 0) the heartbeat reports 0
remaining minutes for every interval and hour, in particular at 13:00
with interval 12 it reports 0 rather than 660. -/
theorem claim_C9 :
    (∀ interval hours : ℤ, remainingTime interval hours 0 = 0)
    ∧ remainingTime 12 13 0 = 0 := by
  constructor
  · intro i h
    simp [remainingTime, remainingMinutes]
  · decide

/-- C7: when the required configuration is present and the interval is in
range but connect() throws, startup ends with the fatal connection error
(the module throw exits the process non-zero) and the scheduler is never
registered. -/
theorem claim_C7 (env : Env) (cfg : Config) (node : NodeBehavior)
    (hok : requiredConfigOk env cfg = true)
    (hin : ¬ (paymentInterval cfg < 1 ∨ 24 < paymentInterval cfg))
    (hc : node.connectOk = false) :
    startup env cfg node = ⟨.error "RPC connection error", [.connectAttempt]⟩
    ∧ StartupEvent.schedulerRegistered ∉ (startup env cfg node).events := by
  simp only [requiredConfigOk, Bool.and_eq_true, Bool.not_eq_true'] at hok
  obtain ⟨⟨⟨h1, h2⟩, h3⟩, h4⟩ := hok
  have he : startup env cfg node =
      ⟨.error "RPC connection error", [.connectAttempt]⟩ := by
    simp [startup, h1, h2, h3, h4, hin, hc]
  exact ⟨he, by simp [he]⟩

/-- C7 witness: with the good configuration and a node whose connect
fails, startup ends with the connection error and no registration. -/
theorem claim_C7_witness :
    startup envGood cfgGood ⟨false, true, true⟩ =
      ⟨.error "RPC connection error", [.connectAttempt]⟩
    ∧ StartupEvent.schedulerRegistered ∉
        (startup envGood cfgGood ⟨false, true, true⟩).events :=
  claim_C7 envGood cfgGood ⟨false, true, true⟩ rfl paymentInterval_cfgGood rfl

/-- C10: whenever the scheduler got registered, the final state has
rpcConnected true and a non-null transactionManager, so the non-null
assertion at the transferBalances call site is safe. -/
theorem claim_C10 (env : Env) (cfg : Config) (node : NodeBehavior)
    (h : StartupEvent.schedulerRegistered ∈ (startup env cfg node).events) :
    ∃ st, (startup env cfg node).outcome = Except.ok st ∧
      st.rpcConnected = true ∧ st.transactionManager.isSome = true := by
  unfold startup at h ⊢
  split_ifs at h ⊢ <;> simp_all

/-- C10 witness: on the good fixtures the scheduler is registered and the
final state has the gate set and the manager present. -/
theorem claim_C10_witness :
    ∃ st, (startup envGood cfgGood nodeGood).outcome = Except.ok st ∧
      st.rpcConnected = true ∧ st.transactionManager.isSome = true :=
  claim_C10 envGood cfgGood nodeGood (by simp [startup_good_eq])

/-- C3 counterexample: a configured payouts-per-day of 0 derives an
interval outside [1, 24] per the claim, yet startup does not fail: the JS
default replaces 0 by 2, the interval becomes 12, and the run completes
and registers the scheduler. -/
theorem claim_C3_counterexample :
    paymentInterval ⟨some "mainnet", some 0⟩ = 12 ∧
    startup envGood ⟨some "mainnet", some 0⟩ nodeGood =
      ⟨Except.ok ⟨true, some ⟨"mainnet", "key", "db"⟩⟩,
        [.connectAttempt, .schedulerRegistered]⟩ := by
  constructor
  · norm_num [paymentInterval, effectivePayoutsPerDay]
  · simp [startup, envGood, nodeGood, falsyStr]
    norm_num [paymentInterval, effectivePayoutsPerDay]

/-- C3 (amended): for every configured nonzero payouts-per-day whose
derived interval 24/p lies outside the inclusive range [1, 24], startup
fails with the range error and does not proceed (no connection attempt);
a configured 0 is falsy, defaults to 2, and does not fail. -/
theorem claim_C3 (env : Env) (cfg : Config) (node : NodeBehavior) (p : ℚ)
    (hok : requiredConfigOk env cfg = true)
    (hp : cfg.payoutsPerDay = some p) (hp0 : p ≠ 0)
    (hout : 24 / p < 1 ∨ 24 < 24 / p) :
    startup env cfg node =
      ⟨.error "paymentInterval must be between 1 and 24 hours.", []⟩ := by
  simp only [requiredConfigOk, Bool.and_eq_true, Bool.not_eq_true'] at hok
  obtain ⟨⟨⟨h1, h2⟩, h3⟩, h4⟩ := hok
  have hpi : paymentInterval cfg = 24 / p := by
    simp [paymentInterval, effectivePayoutsPerDay, hp, hp0]
  have hcond : paymentInterval cfg < 1 ∨ 24 < paymentInterval cfg := by
    rw [hpi]; exact hout
  simp [startup, h1, h2, h3, h4, hcond]

/-- C3 witness: payouts-per-day 48 derives interval 1/2 and startup fails
with the range error before any connection attempt. -/
theorem claim_C3_witness :
    startup envGood ⟨some "mainnet", some 48⟩ nodeGood =
      ⟨.error "paymentInterval must be between 1 and 24 hours.", []⟩ :=
  claim_C3 envGood ⟨some "mainnet", some 48⟩ nodeGood 48 rfl rfl
    (by norm_num) (Or.inl (by norm_num))

/-- C4 counterexample: with payouts-per-day 5 the derived interval is
24/5, whose denominator is 5, so it is not an integer (an integral
rational has denominator 1); the range check nevertheless passes and the
run completes, so the claim that paymentInterval is always an integer is
false. -/
theorem claim_C4_counterexample :
    (paymentInterval ⟨some "mainnet", some 5⟩).den = 5 ∧
    (∀ n : ℤ, paymentInterval ⟨some "mainnet", some 5⟩ ≠ (n : ℚ)) ∧
    managerConstructed (startup envGood ⟨some "mainnet", some 5⟩ nodeGood) = true := by
  refine ⟨?_, ?_, ?_⟩
  · norm_num [paymentInterval, effectivePayoutsPerDay]
  · intro n h
    have hd : (paymentInterval ⟨some "mainnet", some 5⟩).den = (n : ℚ).den := by
      rw [h]
    rw [Rat.den_intCast] at hd
    norm_num [paymentInterval, effectivePayoutsPerDay] at hd
  · simp [managerConstructed, startup, envGood, nodeGood, falsyStr]
    norm_num [paymentInterval, effectivePayoutsPerDay]

/-- C4 (amended): paymentInterval is 24 divided by the effective
payouts-per-day (which is 2 when the field is absent, making the interval
12); it is an integer for the documented frequencies 1, 2, 3, 4, 6, 8,
12 and 24, but not for every configuration. -/
theorem claim_C4 (cfg : Config) :
    paymentInterval cfg = 24 / effectivePayoutsPerDay cfg
    ∧ (cfg.payoutsPerDay = none → paymentInterval cfg = 12)
    ∧ (∀ p : ℚ, cfg.payoutsPerDay = some p →
        (p = 1 ∨ p = 2 ∨ p = 3 ∨ p = 4 ∨ p = 6 ∨ p = 8 ∨ p = 12 ∨ p = 24) →
        (paymentInterval cfg).den = 1) := by
  refine ⟨rfl, fun h => ?_, fun p hp hmem => ?_⟩
  · norm_num [paymentInterval, effectivePayoutsPerDay, h]
  · rcases hmem with h | h | h | h | h | h | h | h <;> subst h <;>
      norm_num [paymentInterval, effectivePayoutsPerDay, hp]

/-- C4 witness: with payouts-per-day 3 the interval is an integer. -/
theorem claim_C4_witness :
    (paymentInterval ⟨some "mainnet", some 3⟩).den = 1 :=
  (claim_C4 ⟨some "mainnet", some 3⟩).2.2 3 rfl
    (Or.inr (Or.inr (Or.inl rfl)))

/-- C8: the cron expression fires exactly at minute 0 of hours that are
exact multiples of the interval; with the default payouts-per-day 2 the
interval is 12 and the firing hours of a day are exactly 0 and 12. -/
theorem claim_C8 :
    (∀ interval hour minute : ℕ,
      cronFires interval hour minute = true ↔ minute = 0 ∧ interval ∣ hour)
    ∧ (∀ hour minute : ℕ, hour < 24 →
      (cronFires 12 hour minute = true ↔ minute = 0 ∧ (hour = 0 ∨ hour = 12)))
    ∧ paymentInterval cfgGood = 12 := by
  refine ⟨fun i h m => ?_, fun h m hlt => ?_, ?_⟩
  · simp only [cronFires, Bool.and_eq_true, beq_iff_eq]
    rw [Nat.dvd_iff_mod_eq_zero]
  · simp only [cronFires, Bool.and_eq_true, beq_iff_eq]
    constructor
    · rintro ⟨hm, hh⟩
      exact ⟨hm, by omega⟩
    · rintro ⟨hm, hh⟩
      exact ⟨hm, by omega⟩
  · norm_num [cfgGood, paymentInterval, effectivePayoutsPerDay]

/-- C8 witness: with interval 12 the scheduler fires at 12:00. -/
theorem claim_C8_witness : cronFires 12 12 0 = true :=
  (claim_C8.2.1 12 0 (by decide)).mpr ⟨rfl, Or.inr rfl⟩
